import Mathlib

/-!
Shallow embedding of the envim RPC core (src/nvim.c and src/pack.c):
the msgpack tagged-value model, the typed decoders of pack.c, and the
request-correlation and dispatch logic of nvim.c, with theorems checking
the natural-language specification against them.
-/

namespace Envim

/-- Tagged union produced by the msgpack codec (msgpack_object). One
constructor per msgpack object kind used by the code. The map and float
payloads are never inspected by any code under verification, so they are
not modelled. The ext constructor carries the type tag (int8 in C) and
the raw payload bytes. -/
inductive MsgpackObject : Type
  | nil
  | boolean (b : Bool)
  | posInt (n : Nat)
  | negInt (i : Int)
  | float64
  | str (s : String)
  | bin (bytes : List Nat)
  | array (elems : List MsgpackObject)
  | map
  | ext (tag : Int) (payload : List Nat)

/-- Wrap a natural number into the signed 64-bit interpretation, as a C
int64_t holding those bytes would read. -/
def toInt64 (n : Nat) : Int :=
  if n % 2 ^ 64 < 2 ^ 63 then ((n % 2 ^ 64 : Nat) : Int)
  else ((n % 2 ^ 64 : Nat) : Int) - 2 ^ 64

/-- Little-endian byte assembly: byte i contributes with weight 256 ^ i,
as memcpy of the payload into a zero-initialized integer does on a
little-endian host. -/
def littleEndianNat : List Nat → Nat
  | [] => 0
  | b :: bs => b % 256 + 256 * littleEndianNat bs

/-- Embeds read_object_id of pack.c: memcpy the extension payload bytes
into a zero-initialized t_int (int64_t) on a little-endian host. Payloads
longer than 8 bytes are undefined behaviour in the C source (unchecked
memcpy into a fixed-width integer); no theorem below touches that case. -/
def read_object_id (payload : List Nat) : Int :=
  toInt64 (littleEndianNat payload)

/-- Reading the via.i64 union member of a msgpack object. For the two
integer kinds this is the stored value (a u64 payload reinterpreted as
int64 for positive integers). For every other kind the C read is a union
type pun with unspecified result; the model returns 0 there and no
theorem below depends on those cases. -/
def via_i64 : MsgpackObject → Int
  | .posInt n => toInt64 n
  | .negInt i => i
  | _ => 0

/-- Kind test: MSGPACK_OBJECT_POSITIVE_INTEGER. -/
def isPosInt : MsgpackObject → Bool
  | .posInt _ => true
  | _ => false

/-- Kind test: MSGPACK_OBJECT_NEGATIVE_INTEGER. -/
def isNegInt : MsgpackObject → Bool
  | .negInt _ => true
  | _ => false

/-- Kind test: MSGPACK_OBJECT_EXT. -/
def isExt : MsgpackObject → Bool
  | .ext _ _ => true
  | _ => false

/-- Kind test: MSGPACK_OBJECT_STR. -/
def isStr : MsgpackObject → Bool
  | .str _ => true
  | _ => false

/-- Modelled from the spec: the invalid sentinel T_INT_INVALID of the
t_int type. Its defining header (types.h via Envim.h) is not under src;
the spec only calls it the invalid sentinel, so it is taken as -1,
matching the style of the documented invalid position (-1, -1). No
theorem depends on the exact value beyond it differing from small valid
handle ids. -/
def T_INT_INVALID : Int := -1

/-- Enum e_nvim_object of pack.c: extension type tag of a buffer. -/
def E_NVIM_OBJECT_BUFFER : Int := 1

/-- Enum e_nvim_object of pack.c: extension type tag of a window. -/
def E_NVIM_OBJECT_WINDOW : Int := 2

/-- Enum e_nvim_object of pack.c: extension type tag of a tabpage. -/
def E_NVIM_OBJECT_TAB : Int := 3

/-- The position value type (s_position): a pair of t_int coordinates. -/
structure SPosition where
  x : Int
  y : Int
  deriving DecidableEq, Repr

/-- Constructor helper position_make used by pack.c. -/
def position_make (x y : Int) : SPosition := ⟨x, y⟩

/-- Embeds pack_boolean_get of pack.c: the ARGS_CHECK_SIZE macro returns
EINA_FALSE on arity other than 1, a non-boolean element returns
EINA_FALSE, and otherwise the stored boolean is returned. -/
def pack_boolean_get (args : List MsgpackObject) : Bool :=
  if args.length ≠ 1 then false
  else match args.getD 0 .nil with
    | .boolean b => b
    | _ => false

/-- Embeds pack_position_get of pack.c. Note the guard of the source: it
returns the sentinel only when the first element is not a positive
integer AND the second element is not a positive integer (a logical-and
of the two negative kind tests); otherwise it reads via.i64 of both
elements. -/
def pack_position_get (args : List MsgpackObject) : SPosition :=
  if args.length ≠ 2 then position_make (-1) (-1)
  else if !(isPosInt (args.getD 0 .nil)) && !(isPosInt (args.getD 1 .nil)) then
    position_make (-1) (-1)
  else position_make (via_i64 (args.getD 0 .nil)) (via_i64 (args.getD 1 .nil))

/-- Embeds pack_int_get of pack.c: arity 1, element of positive- or
negative-integer kind, value read through via.i64; 0 on failure. -/
def pack_int_get (args : List MsgpackObject) : Int :=
  if args.length ≠ 1 then 0
  else if !(isPosInt (args.getD 0 .nil)) && !(isNegInt (args.getD 0 .nil)) then 0
  else via_i64 (args.getD 0 .nil)

/-- Embeds pack_stringshare_get of pack.c: arity 1, element of string
kind; NULL (none) on failure. -/
def pack_stringshare_get (args : List MsgpackObject) : Option String :=
  if args.length ≠ 1 then none
  else match args.getD 0 .nil with
    | .str s => some s
    | _ => none

/-- Embeds pack_buffer_get of pack.c: arity 1, element of extension
kind, extension tag equal to E_NVIM_OBJECT_BUFFER, id reconstructed by
read_object_id; T_INT_INVALID on every failure. -/
def pack_buffer_get (args : List MsgpackObject) : Int :=
  if args.length ≠ 1 then T_INT_INVALID
  else match args.getD 0 .nil with
    | .ext tag payload =>
        if tag ≠ E_NVIM_OBJECT_BUFFER then T_INT_INVALID
        else read_object_id payload
    | _ => T_INT_INVALID

/-- Embeds pack_window_get of pack.c: the source body is only
CRI("Unimplemented") followed by return T_INT_INVALID, for every
input. -/
def pack_window_get (_ : List MsgpackObject) : Int := T_INT_INVALID

/-- Embeds pack_tabpage_get of pack.c: the source body is only
CRI("Unimplemented") followed by return T_INT_INVALID, for every
input. -/
def pack_tabpage_get (_ : List MsgpackObject) : Int := T_INT_INVALID

/-- Embeds pack_object_get of pack.c: unimplemented, returns
T_INT_INVALID for every input. -/
def pack_object_get (_ : List MsgpackObject) : Int := T_INT_INVALID

/-- Embeds pack_list_of_objects_get of pack.c (shared body of
pack_buffers_get, pack_windows_get and pack_tabpages_get): iterates the
elements in order; on the first element that is not of extension kind
the partially built list is freed and NULL is returned (none); otherwise
the ids read from each extension payload are collected in order. In
Eina a NULL list is also the empty list, so the failure result and a
successful empty decode coincide for the caller; the model keeps the
control-flow distinction as Option. -/
def pack_list_of_objects_get : List MsgpackObject → Option (List Int)
  | [] => some []
  | .ext _ payload :: rest =>
      match pack_list_of_objects_get rest with
      | some ids => some (read_object_id payload :: ids)
      | none => none
  | _ :: _ => none

/-- Embeds pack_buffers_get of pack.c. -/
def pack_buffers_get (args : List MsgpackObject) : Option (List Int) :=
  pack_list_of_objects_get args

/-- Embeds pack_windows_get of pack.c. -/
def pack_windows_get (args : List MsgpackObject) : Option (List Int) :=
  pack_list_of_objects_get args

/-- Embeds pack_tabpages_get of pack.c. -/
def pack_tabpages_get (args : List MsgpackObject) : Option (List Int) :=
  pack_list_of_objects_get args

/-- Embeds pack_strings_get of pack.c: iterates the elements in order;
an element that is not of string kind is logged and skipped (continue);
string elements are interned and appended. Stringshare creation is
modelled as always succeeding (its failure branch also just skips). -/
def pack_strings_get : List MsgpackObject → List String
  | [] => []
  | .str s :: rest => s :: pack_strings_get rest
  | _ :: rest => pack_strings_get rest

/-- Kind test: MSGPACK_OBJECT_ARRAY. -/
def isArray : MsgpackObject → Bool
  | .array _ => true
  | _ => false

/-- Modelled from the spec: the s_request structure (its header is not
under src). A Pending Request is its unique numeric id plus the bound
typed-result decoder/continuation; nvim.c only reads the uid field, so
the bound decoder is represented by an opaque numeric tag rtype. -/
structure SRequest where
  uid : Nat
  rtype : Nat
  deriving DecidableEq, Repr

/-- Embeds nvim_request_find of nvim.c: walk the pending-request list in
order and stop at the first entry whose uid equals the response id. The
C function returns the list node; the model returns the entry carried by
that node. -/
def nvim_request_find (requests : List SRequest) (req_id : Nat) : Option SRequest :=
  requests.find? (fun r => r.uid == req_id)

/-- Embeds the removal step of handle_request_response of nvim.c:
eina_list_remove_list removes exactly the node returned by
nvim_request_find, which is the first node whose uid matches. -/
def nvim_request_remove (requests : List SRequest) (req_id : Nat) : List SRequest :=
  requests.eraseP (fun r => r.uid == req_id)

/-- Outcome of handle_request_response of nvim.c. badId: second message
field is not a positive integer (ERR, EINA_FALSE). notFound: no pending
request with that id (CRI, the loud consistency report, EINA_FALSE).
badResult: fourth message field is not an array (ERR, EINA_FALSE; the
request was already removed). dispatched: the bound handler is invoked
through nvim_api_response_dispatch with the result array. -/
inductive HandleResult
  | badId
  | notFound
  | badResult
  | dispatched (req : SRequest) (out_args : List MsgpackObject)

/-- Embeds handle_request_response of nvim.c, acting on the
pending-request list of the instance. args is the four-element message
array (the caller has already checked the arity). The source order is
kept: the id field check, the find, then the removal from the pending
list, and only after that the check that the fourth field is an
array. -/
def handle_request_response (requests : List SRequest) (args : List MsgpackObject) :
    HandleResult × List SRequest :=
  match args.getD 1 .nil with
  | .posInt req_id =>
    match nvim_request_find requests req_id with
    | none => (.notFound, requests)
    | some req =>
      let requests2 := nvim_request_remove requests req_id
      match args.getD 3 .nil with
      | .array out_args => (.dispatched req out_args, requests2)
      | _ => (.badResult, requests2)
  | _ => (.badId, requests)

/-- Outcome of one data-received event in nvim_received_data_cb of
nvim.c. notAnArray: the decoded message is not an array (ERR, dropped).
wrongSize: the array does not have exactly 4 elements (ERR, dropped).
badKindField: the first element is not a positive integer (ERR,
dropped). response: kind 1, handled by handle_request_response.
notificationUnimplemented: kind 2 (ERR "unimplemented", dropped).
invalidMessage: any other kind (ERR, dropped). -/
inductive DispatchOutcome
  | notAnArray
  | wrongSize
  | badKindField
  | response (res : HandleResult)
  | notificationUnimplemented
  | invalidMessage (kind : Nat)

/-- Embeds the message-classification part of nvim_received_data_cb of
nvim.c, from the already-deserialized msgpack object: require an array,
require exactly 4 elements, require a positive-integer first field, then
switch on that field (1 response, 2 notification, default error). The
callback always returns ECORE_CALLBACK_PASS_ON; termination of the model
function is the no-crash property. -/
def nvim_received_data (requests : List SRequest) (deserialized : MsgpackObject) :
    DispatchOutcome × List SRequest :=
  match deserialized with
  | .array args =>
    if args.length ≠ 4 then (.wrongSize, requests)
    else match args.getD 0 .nil with
      | .posInt k =>
        if k = 1 then
          let p := handle_request_response requests args
          (.response p.fst, p.snd)
        else if k = 2 then (.notificationUnimplemented, requests)
        else (.invalidMessage k, requests)
      | _ => (.badKindField, requests)
  | _ => (.notAnArray, requests)

/-- Modulus of the uint64_t request-id counter. -/
def UINT64_MOD : Nat := 2 ^ 64

/-- Embeds nvim_get_next_uid of nvim.c: return nvim->request_id++, a
post-increment of the uint64_t counter. The pair is (returned id, new
counter value), with uint64 wraparound made explicit. -/
def nvim_get_next_uid (request_id : Nat) : Nat × Nat :=
  (request_id % UINT64_MOD, (request_id + 1) % UINT64_MOD)

/-- The ids returned by n consecutive nvim_get_next_uid calls starting
from counter value s. -/
def nvim_uid_seq : Nat → Nat → List Nat
  | _, 0 => []
  | s, n + 1 =>
    let p := nvim_get_next_uid s
    p.fst :: nvim_uid_seq p.snd n

/-!
Theorems settling the claims.
-/

/-- C5: the buffer-handle decoder maps an argument array holding exactly
one extension value with type tag 1 and the one-byte payload 0x05 to
buffer handle 5, and the same payload under type tag 2 is rejected with
the invalid sentinel when a buffer handle was expected. -/
theorem buffer_decode_tag_and_payload :
    pack_buffer_get [MsgpackObject.ext 1 [0x05]] = 5 ∧
    pack_buffer_get [MsgpackObject.ext 2 [0x05]] = T_INT_INVALID := by
  constructor <;> decide

/-- C10: the failure sentinels of the scalar decoders coincide with
valid decoded values. The boolean decoder returns false for the failing
inputs [] and [1] and for the valid input [false]; the integer decoder
returns 0 for the failing inputs [] and [true] and for the valid
input [0]. -/
theorem scalar_sentinels_ambiguous :
    pack_boolean_get [] = false ∧
    pack_boolean_get [MsgpackObject.posInt 1] = false ∧
    pack_boolean_get [MsgpackObject.boolean false] = false ∧
    pack_int_get [] = 0 ∧
    pack_int_get [MsgpackObject.boolean true] = 0 ∧
    pack_int_get [MsgpackObject.posInt 0] = 0 := by
  refine ⟨rfl, rfl, rfl, rfl, rfl, ?_⟩
  decide

/-- C3 counterexample: an incoming three-field notification
[2, event, args] is not classified as a notification; the arity check of
nvim_received_data_cb requires exactly 4 elements and discards the
message as malformed before the kind switch is reached. -/
theorem notification_three_fields_rejected :
    (nvim_received_data [] (MsgpackObject.array
        [MsgpackObject.posInt 2, MsgpackObject.str "redraw",
         MsgpackObject.array []])).fst = DispatchOutcome.wrongSize ∧
    DispatchOutcome.wrongSize ≠ DispatchOutcome.notificationUnimplemented :=
  ⟨rfl, fun h => DispatchOutcome.noConfusion h⟩

/-- C4 counterexample: the window-handle decoder does not reconstruct
the id from a well-formed window extension (tag E_NVIM_OBJECT_WINDOW,
payload 0x05); the source body is an unimplemented stub returning the
invalid sentinel, which differs from the id 5 the claim requires. -/
theorem window_decoder_stub :
    pack_window_get [MsgpackObject.ext E_NVIM_OBJECT_WINDOW [0x05]] = T_INT_INVALID ∧
    T_INT_INVALID ≠ (5 : Int) := by
  constructor <;> decide

/-- C6 counterexample: an argument array of two integer elements [-5, -7]
does not decode to position (-5, -7); the guard of pack_position_get only
accepts positive-integer kinds and, both elements being of
negative-integer kind, returns the sentinel (-1, -1). -/
theorem position_negative_integers_rejected :
    pack_position_get [MsgpackObject.negInt (-5), MsgpackObject.negInt (-7)]
      = position_make (-1) (-1) ∧
    position_make (-1) (-1) ≠ position_make (-5) (-7) := by
  constructor <;> decide

/-- Helper: erasing the first match of a predicate that matches at most
once in the list leaves a list with no match at all. -/
theorem find?_eraseP_eq_none {α : Type} (p : α → Bool) :
    ∀ (l : List α) (a : α), l.countP p ≤ 1 → l.find? p = some a →
      (l.eraseP p).find? p = none := by
  intro l
  induction l with
  | nil => intro a _ hfind; cases hfind
  | cons x xs ih =>
    intro a hcount hfind
    by_cases hp : p x = true
    · rw [List.eraseP_cons_of_pos hp]
      rw [List.countP_cons_of_pos p xs hp] at hcount
      have hzero : xs.countP p = 0 := by omega
      rw [List.find?_eq_none]
      intro y hy
      exact (List.countP_eq_zero.mp hzero) y hy
    · have hp' : ¬ p x = true := hp
      rw [List.eraseP_cons_of_neg hp']
      rw [List.find?_cons_of_neg _ hp']
      rw [List.countP_cons_of_neg p xs hp'] at hcount
      rw [List.find?_cons_of_neg _ hp'] at hfind
      exact ih a hcount hfind

/-- C1: resolving a pending-request id succeeds at most once. If the
pending list holds at most one request with the response id and the find
locates it, then the response dispatches that request and removes it
from the pending list, after which no pending request with that id
remains: the find on the new list fails and a second response with the
same id takes the loud notFound path, leaving the list unchanged. -/
theorem resolve_at_most_once (requests : List SRequest) (req : SRequest)
    (req_id : Nat) (e : MsgpackObject) (out : List MsgpackObject)
    (hfind : nvim_request_find requests req_id = some req)
    (hcount : requests.countP (fun r => r.uid == req_id) ≤ 1) :
    handle_request_response requests
        [MsgpackObject.posInt 1, MsgpackObject.posInt req_id, e, MsgpackObject.array out]
      = (HandleResult.dispatched req out, nvim_request_remove requests req_id) ∧
    nvim_request_find (nvim_request_remove requests req_id) req_id = none ∧
    handle_request_response (nvim_request_remove requests req_id)
        [MsgpackObject.posInt 1, MsgpackObject.posInt req_id, e, MsgpackObject.array out]
      = (HandleResult.notFound, nvim_request_remove requests req_id) := by
  have hgone : nvim_request_find (nvim_request_remove requests req_id) req_id = none :=
    find?_eraseP_eq_none _ requests req hcount hfind
  refine ⟨?_, hgone, ?_⟩
  · simp [handle_request_response, hfind]
  · simp [handle_request_response, hgone]

/-- C2: a response whose id matches no pending request does not crash
the instance (the model function totally returns, mirroring the callback
returning ECORE_CALLBACK_PASS_ON), the failure is reported loudly (the
CRI path, modelled by the notFound outcome), the message is dropped (no
dispatch happens), and the pending-request list is returned unchanged,
hence unchanged for every other id. -/
theorem unmatched_response_id_frame (requests : List SRequest) (req_id : Nat)
    (e res : MsgpackObject)
    (h : ∀ r ∈ requests, r.uid ≠ req_id) :
    nvim_received_data requests (MsgpackObject.array
        [MsgpackObject.posInt 1, MsgpackObject.posInt req_id, e, res])
      = (DispatchOutcome.response HandleResult.notFound, requests) := by
  have hnone : nvim_request_find requests req_id = none := by
    rw [nvim_request_find, List.find?_eq_none]
    intro r hr
    simpa using h r hr
  simp [nvim_received_data, handle_request_response, hnone]

/-- C9: response handling is not atomic with payload validation. For a
response whose id matches a pending request but whose fourth field is
not an array, the request is removed from the pending list before the
result-field check: the outcome is badResult (the bound decoder is never
invoked, nothing is dispatched), the request is consumed, and an
identical later response finds nothing and returns notFound. -/
theorem request_consumed_on_bad_result (requests : List SRequest) (req : SRequest)
    (req_id : Nat) (e bad : MsgpackObject)
    (hfind : nvim_request_find requests req_id = some req)
    (hcount : requests.countP (fun r => r.uid == req_id) ≤ 1)
    (hbad : isArray bad = false) :
    handle_request_response requests
        [MsgpackObject.posInt 1, MsgpackObject.posInt req_id, e, bad]
      = (HandleResult.badResult, nvim_request_remove requests req_id) ∧
    nvim_request_find (nvim_request_remove requests req_id) req_id = none ∧
    handle_request_response (nvim_request_remove requests req_id)
        [MsgpackObject.posInt 1, MsgpackObject.posInt req_id, e, bad]
      = (HandleResult.notFound, nvim_request_remove requests req_id) := by
  have hgone : nvim_request_find (nvim_request_remove requests req_id) req_id = none :=
    find?_eraseP_eq_none _ requests req hcount hfind
  refine ⟨?_, hgone, ?_⟩
  · cases bad <;> simp_all [handle_request_response, isArray]
  · cases bad <;> simp_all [handle_request_response, isArray]

/-- Helper: a list of length four is literally a four-element list. -/
theorem exists_four_elems {α : Type} : ∀ l : List α, l.length = 4 →
    ∃ a b c d, l = [a, b, c, d] := by
  intro l h
  rcases l with _ | ⟨a, _ | ⟨b, _ | ⟨c, _ | ⟨d, _ | ⟨e, t⟩⟩⟩⟩⟩ <;> simp_all

/-- C3 (amended): classification inspects the message-kind field only
for four-element arrays: kind 1 is handled as a response, kind 2 is
received and classified as a notification but not acted upon, and any
other kind is a protocol error that is logged and discarded; a
three-field array such as an incoming [2, event, args] notification is
rejected as malformed by the arity check before classification. -/
theorem message_classification_spec :
    (∀ requests args, args.length = 4 →
        args.getD 0 MsgpackObject.nil = MsgpackObject.posInt 1 →
        nvim_received_data requests (MsgpackObject.array args)
          = (DispatchOutcome.response (handle_request_response requests args).fst,
             (handle_request_response requests args).snd)) ∧
    (∀ requests args, args.length = 4 →
        args.getD 0 MsgpackObject.nil = MsgpackObject.posInt 2 →
        nvim_received_data requests (MsgpackObject.array args)
          = (DispatchOutcome.notificationUnimplemented, requests)) ∧
    (∀ requests args k, args.length = 4 →
        args.getD 0 MsgpackObject.nil = MsgpackObject.posInt k →
        k ≠ 1 → k ≠ 2 →
        nvim_received_data requests (MsgpackObject.array args)
          = (DispatchOutcome.invalidMessage k, requests)) ∧
    (∀ requests e a, nvim_received_data requests
          (MsgpackObject.array [MsgpackObject.posInt 2, e, a])
        = (DispatchOutcome.wrongSize, requests)) := by
  refine ⟨?_, ?_, ?_, ?_⟩
  · intro requests args h4 h0
    obtain ⟨a, b, c, d, rfl⟩ := exists_four_elems args h4
    simp only [List.getD, List.getElem?_cons_zero, Option.getD_some] at h0
    subst h0
    simp [nvim_received_data]
  · intro requests args h4 h0
    obtain ⟨a, b, c, d, rfl⟩ := exists_four_elems args h4
    simp only [List.getD, List.getElem?_cons_zero, Option.getD_some] at h0
    subst h0
    simp [nvim_received_data]
  · intro requests args k h4 h0 h1 h2
    obtain ⟨a, b, c, d, rfl⟩ := exists_four_elems args h4
    simp only [List.getD, List.getElem?_cons_zero, Option.getD_some] at h0
    subst h0
    simp [nvim_received_data, h1, h2]
  · intro requests e a
    simp [nvim_received_data]

/-- C4 (amended): only the buffer-handle decoder implements the typed
object-handle discipline: it requires exactly one extension-kind element,
rejects a wrong arity, a non-extension element and a type-tag other than
the buffer tag with the invalid sentinel, and reconstructs the numeric
id from the extension payload bytes when the tag matches. The window and
tabpage decoders are unimplemented stubs that return the invalid
sentinel for every input. -/
theorem object_handle_decoders_spec :
    (∀ args, args.length ≠ 1 → pack_buffer_get args = T_INT_INVALID) ∧
    (∀ x, isExt x = false → pack_buffer_get [x] = T_INT_INVALID) ∧
    (∀ tag payload, tag ≠ E_NVIM_OBJECT_BUFFER →
        pack_buffer_get [MsgpackObject.ext tag payload] = T_INT_INVALID) ∧
    (∀ payload, pack_buffer_get [MsgpackObject.ext E_NVIM_OBJECT_BUFFER payload]
        = read_object_id payload) ∧
    (∀ args, pack_window_get args = T_INT_INVALID) ∧
    (∀ args, pack_tabpage_get args = T_INT_INVALID) := by
  refine ⟨?_, ?_, ?_, ?_, ?_, ?_⟩
  · intro args h
    simp [pack_buffer_get, h]
  · intro x hx
    cases x <;> simp_all [pack_buffer_get, isExt]
  · intro tag payload h
    simp [pack_buffer_get, h]
  · intro payload
    simp [pack_buffer_get]
  · intro args; rfl
  · intro args; rfl

/-- C6 (amended): the position decoder requires exactly two elements and
maps [3, 7] to position (3, 7); a wrong arity returns the sentinel
(-1, -1); the sentinel is also returned when neither element is of
positive-integer kind (so two negative integers are rejected, not
decoded); when both elements are of positive-integer kind their values
are returned as (x, y) in order. A kind mismatch in only one element is
not caught by the guard of the source. -/
theorem position_decoder_spec :
    pack_position_get [MsgpackObject.posInt 3, MsgpackObject.posInt 7]
      = position_make 3 7 ∧
    (∀ args, args.length ≠ 2 → pack_position_get args = position_make (-1) (-1)) ∧
    (∀ a b, isPosInt a = false → isPosInt b = false →
        pack_position_get [a, b] = position_make (-1) (-1)) ∧
    (∀ m n, pack_position_get [MsgpackObject.posInt m, MsgpackObject.posInt n]
        = position_make (toInt64 m) (toInt64 n)) := by
  refine ⟨by decide, ?_, ?_, ?_⟩
  · intro args h
    simp [pack_position_get, h]
  · intro a b ha hb
    simp [pack_position_get, ha, hb]
  · intro m n
    simp [pack_position_get, isPosInt, via_i64]

/-- C7: the two list decoders have asymmetric partial-failure policy.
The list-of-strings decoder skips every element that is not of string
kind and returns exactly the successfully decoded strings in order; the
list-of-handles decoder returns the failure result (NULL) as soon as any
element is not of extension kind, discarding the whole partial list. -/
theorem list_decoders_partial_failure :
    (∀ args, pack_strings_get args = args.filterMap (fun x =>
        match x with
        | MsgpackObject.str s => some s
        | _ => none)) ∧
    (∀ args x, x ∈ args → isExt x = false → pack_list_of_objects_get args = none) := by
  constructor
  · intro args
    induction args with
    | nil => rfl
    | cons y rest ih => cases y <;> simp [pack_strings_get, ih]
  · intro args x hmem hx
    induction args with
    | nil => cases hmem
    | cons y rest ih =>
      rcases List.mem_cons.mp hmem with hxy | hxr
      · subst hxy
        cases x <;> simp_all [pack_list_of_objects_get, isExt]
      · cases y <;> simp_all [pack_list_of_objects_get, isExt]

/-- Helper: with no uint64 wraparound in range, the ids returned by n
consecutive nvim_get_next_uid calls starting at counter value s are
exactly s, s + 1, ..., s + n - 1. -/
theorem nvim_uid_seq_eq_range' (n : Nat) : ∀ s : Nat, s + n ≤ UINT64_MOD →
    nvim_uid_seq s n = List.range' s n := by
  induction n with
  | zero => intro s _; rfl
  | succ m ih =>
    intro s h
    have hs : s % UINT64_MOD = s := Nat.mod_eq_of_lt (by simp [UINT64_MOD] at h ⊢; omega)
    have hstep : nvim_uid_seq s (m + 1)
        = s :: nvim_uid_seq ((s + 1) % UINT64_MOD) m := by
      simp [nvim_uid_seq, nvim_get_next_uid, hs]
    rcases Nat.eq_zero_or_pos m with hm | hm
    · subst hm
      simp [hstep, nvim_uid_seq, nvim_get_next_uid, hs, List.range']
    · have h1 : (s + 1) % UINT64_MOD = s + 1 := Nat.mod_eq_of_lt (by omega)
      rw [hstep, h1, ih (s + 1) (by omega)]
      simp [List.range']

/-- C8: the ids returned by n consecutive nvim_get_next_uid calls on an
instance whose counter starts at s form the strictly increasing sequence
s, s + 1, ..., s + n - 1, with no repeats, provided the uint64 counter
does not wrap in that range (wraparound is out of scope per the
claim). -/
theorem allocate_id_strictly_increasing (s n : Nat) (h : s + n ≤ UINT64_MOD) :
    nvim_uid_seq s n = List.range' s n ∧
    (nvim_uid_seq s n).Pairwise (· < ·) := by
  have he := nvim_uid_seq_eq_range' n s h
  refine ⟨he, ?_⟩
  rw [he]
  exact List.pairwise_lt_range' s n

/-- Witness for C1: one pending request with uid 7; the response
dispatches and removes it, and an identical second response finds
nothing. -/
theorem resolve_at_most_once_witness :
    nvim_request_find [SRequest.mk 7 3] 7 = some (SRequest.mk 7 3) ∧
    ([SRequest.mk 7 3].countP (fun r => r.uid == 7) ≤ 1) ∧
    (handle_request_response [SRequest.mk 7 3]
        [MsgpackObject.posInt 1, MsgpackObject.posInt 7, MsgpackObject.nil,
          MsgpackObject.array []]
       = (HandleResult.dispatched (SRequest.mk 7 3) [],
          nvim_request_remove [SRequest.mk 7 3] 7) ∧
     nvim_request_find (nvim_request_remove [SRequest.mk 7 3] 7) 7 = none ∧
     handle_request_response (nvim_request_remove [SRequest.mk 7 3] 7)
        [MsgpackObject.posInt 1, MsgpackObject.posInt 7, MsgpackObject.nil,
          MsgpackObject.array []]
       = (HandleResult.notFound, nvim_request_remove [SRequest.mk 7 3] 7)) :=
  ⟨rfl, by decide,
   resolve_at_most_once [SRequest.mk 7 3] (SRequest.mk 7 3) 7
     MsgpackObject.nil [] rfl (by decide)⟩

/-- Witness for C2: a response with id 2 against a table holding only
uid 1 leaves the table unchanged and is dropped with the loud notFound
outcome. -/
theorem unmatched_response_id_frame_witness :
    (∀ r ∈ [SRequest.mk 1 0], r.uid ≠ 2) ∧
    nvim_received_data [SRequest.mk 1 0] (MsgpackObject.array
        [MsgpackObject.posInt 1, MsgpackObject.posInt 2, MsgpackObject.nil,
          MsgpackObject.array []])
      = (DispatchOutcome.response HandleResult.notFound, [SRequest.mk 1 0]) :=
  ⟨by decide,
   unmatched_response_id_frame [SRequest.mk 1 0] 2 MsgpackObject.nil
     (MsgpackObject.array []) (by decide)⟩

/-- Witness for C9: a response to registered id 4 whose fourth field is
nil consumes the request without dispatching, and the identical second
response returns notFound. -/
theorem request_consumed_on_bad_result_witness :
    nvim_request_find [SRequest.mk 4 1] 4 = some (SRequest.mk 4 1) ∧
    isArray MsgpackObject.nil = false ∧
    (handle_request_response [SRequest.mk 4 1]
        [MsgpackObject.posInt 1, MsgpackObject.posInt 4, MsgpackObject.nil,
          MsgpackObject.nil]
       = (HandleResult.badResult, nvim_request_remove [SRequest.mk 4 1] 4) ∧
     nvim_request_find (nvim_request_remove [SRequest.mk 4 1] 4) 4 = none ∧
     handle_request_response (nvim_request_remove [SRequest.mk 4 1] 4)
        [MsgpackObject.posInt 1, MsgpackObject.posInt 4, MsgpackObject.nil,
          MsgpackObject.nil]
       = (HandleResult.notFound, nvim_request_remove [SRequest.mk 4 1] 4)) :=
  ⟨rfl, rfl,
   request_consumed_on_bad_result [SRequest.mk 4 1] (SRequest.mk 4 1) 4
     MsgpackObject.nil MsgpackObject.nil rfl (by decide) rfl⟩

/-- Witness for C3 (amended): a four-element array with kind field 2 is
classified as the unimplemented-notification case and leaves the request
table unchanged. -/
theorem message_classification_spec_witness :
    ([MsgpackObject.posInt 2, MsgpackObject.nil, MsgpackObject.nil,
        MsgpackObject.nil] : List MsgpackObject).length = 4 ∧
    nvim_received_data [] (MsgpackObject.array
        [MsgpackObject.posInt 2, MsgpackObject.nil, MsgpackObject.nil,
          MsgpackObject.nil])
      = (DispatchOutcome.notificationUnimplemented, []) :=
  ⟨rfl, message_classification_spec.2.1 []
     [MsgpackObject.posInt 2, MsgpackObject.nil, MsgpackObject.nil,
       MsgpackObject.nil] rfl rfl⟩

/-- Witness for C4 (amended): the buffer decoder rejects a wrong arity
and a non-buffer extension tag with the invalid sentinel. -/
theorem object_handle_decoders_spec_witness :
    pack_buffer_get [] = T_INT_INVALID ∧
    pack_buffer_get [MsgpackObject.ext 3 [0x07]] = T_INT_INVALID :=
  ⟨object_handle_decoders_spec.1 [] (by decide),
   object_handle_decoders_spec.2.2.1 3 [0x07] (by decide)⟩

/-- Witness for C6 (amended): a one-element array and a pair of elements
of non-positive-integer kind both yield the sentinel position. -/
theorem position_decoder_spec_witness :
    pack_position_get [MsgpackObject.posInt 3] = position_make (-1) (-1) ∧
    isPosInt MsgpackObject.float64 = false ∧
    pack_position_get [MsgpackObject.float64, MsgpackObject.float64]
      = position_make (-1) (-1) :=
  ⟨position_decoder_spec.2.1 [MsgpackObject.posInt 3] (by decide),
   rfl,
   position_decoder_spec.2.2.1 MsgpackObject.float64 MsgpackObject.float64 rfl rfl⟩

/-- Witness for C7: the string-list decoder skips a non-string element
and keeps the strings around it, while the handle-list decoder discards
everything when a non-extension element occurs after a valid one. -/
theorem list_decoders_partial_failure_witness :
    pack_strings_get [MsgpackObject.str "a", MsgpackObject.posInt 1,
        MsgpackObject.str "b"] = ["a", "b"] ∧
    pack_list_of_objects_get [MsgpackObject.ext 1 [1], MsgpackObject.posInt 0]
      = none :=
  ⟨(list_decoders_partial_failure.1
      [MsgpackObject.str "a", MsgpackObject.posInt 1,
        MsgpackObject.str "b"]).trans rfl,
   list_decoders_partial_failure.2
     [MsgpackObject.ext 1 [1], MsgpackObject.posInt 0] (MsgpackObject.posInt 0)
     (List.Mem.tail _ (List.Mem.head _)) rfl⟩

/-- Witness for C8: starting at counter 0, three consecutive id
allocations return 0, 1, 2, a strictly increasing sequence. -/
theorem allocate_id_strictly_increasing_witness :
    (0 + 3 ≤ UINT64_MOD) ∧
    (nvim_uid_seq 0 3 = List.range' 0 3 ∧
     (nvim_uid_seq 0 3).Pairwise (· < ·)) :=
  ⟨by decide, allocate_id_strictly_increasing 0 3 (by decide)⟩

end Envim
